import Mathlib

/-!
# Verification of the call-agent audio bridge (`src/server.js`)

Shallow embedding of the audio codec engine, the noise gate, and the
per-call WebSocket session handlers of the repository's server.  The file
`src/server.js` contains two near-duplicate server variants separated by a
document marker: variant 1 (lines 1–321, with noise gate and the
`isCleanedUp`-guarded `cleanupSession`) and variant 2 (lines 322–671, with
no gate, a transfer-tool handler and a log-only message catch).  Both are
embedded below.

Conventions of the embedding:
* JavaScript numbers under the bitwise operators used here are 32-bit
  two's-complement integers; every operand in this code is small enough
  that no 32-bit wrap occurs, so `Nat`/`Int` arithmetic with explicit
  masks is exact.  `~x` on such a value is `-x - 1`.
* Writing a value `v` into an `Int16Array` stores
  `toInt16 v` (truncation to 16 bits, high bit as sign); writing into a
  `Uint8Array` stores `v mod 256`.
* `Buffer`s of 16-bit samples are modelled as `List Int` of the samples,
  and μ-law byte buffers as `List Nat`; base64 encoding/decoding is the
  identity on these contents and is elided.
* JS float division `(a+b)/2` and `(a+b+c)/3` of int16 sums followed by an
  `Int16Array` store truncates toward zero: `/2` is exact in doubles, and
  for `/3` the correctly rounded double is strictly within 1/3 of the
  exact rational, so truncation agrees with `Int.tdiv` (T-division).
-/

/-- `Int16Array` element conversion: take the low 16 bits, high bit as sign. -/
def toInt16 (x : Int) : Int :=
  let r := x.emod 65536
  if r < 32768 then r else r - 65536

/-- `muLawToLinear` (src/server.js:67–74, identical in both variants).
`ulawByte = ~ulawByte` followed by the three masked extractions reads,
for a byte argument, exactly the bit-flipped byte `u = b XOR 0xFF`:
sign bit 7, exponent bits 4–6, mantissa bits 0–3 of `u`.  The sample is
`(2*mantissa + 33) << (12 - exponent)`, negated when the sign bit is set. -/
def muLawToLinear (ulawByte : Nat) : Int :=
  let u := ulawByte ^^^ 0xFF
  let sign := u &&& 0x80
  let exponent := (u >>> 4) &&& 0x07
  let mantissa := u &&& 0x0F
  let sample : Int := ((2 * mantissa + 33) <<< (12 - exponent) : Nat)
  if sign ≠ 0 then -sample else sample

/-- The exponent-search loop of `linearToMuLaw` (src/server.js:89–95):
`exponent` starts at 7 and the loop walks `i = 7, 6, …, 0`, breaking at the
first `i` with `sample >> (i+3) > 0`; when no test fires the initial 7
remains. -/
def muExp (sample : Nat) : Nat :=
  if sample >>> 10 > 0 then 7
  else if sample >>> 9 > 0 then 6
  else if sample >>> 8 > 0 then 5
  else if sample >>> 7 > 0 then 4
  else if sample >>> 6 > 0 then 3
  else if sample >>> 5 > 0 then 2
  else if sample >>> 4 > 0 then 1
  else if sample >>> 3 > 0 then 0
  else 7

/-- `linearToMuLaw` (src/server.js:76–98, identical in both variants).
Returns the raw JS value `~(mask ^ ((exponent << 4) | mantissa))`, which
for the byte-sized operand is `-(code + 1)`. -/
def linearToMuLaw (pcmSample : Int) : Int :=
  let mask : Nat := if pcmSample < 0 then 0x7F else 0xFF
  let s0 : Int := if pcmSample < 0 then -pcmSample else pcmSample
  let s1 : Int := if s0 > 32635 then 32635 else s0
  let sample : Nat := (s1 + 0x84).toNat
  let exponent := muExp sample
  let mantissa := (sample >>> (exponent + 3)) &&& 0x0F
  let code : Nat := mask ^^^ ((exponent <<< 4) ||| mantissa);
  -((code : Int) + 1)

/-- The byte actually stored when `linearToMuLaw`'s result is written into
the `Uint8Array` of `processGeminiAudio` (src/server.js:137–140). -/
def linearToMuLawByte (pcmSample : Int) : Nat :=
  ((linearToMuLaw pcmSample).emod 256).toNat

/-- Encode-after-decode round trip on a μ-law byte, at byte granularity. -/
def muLawRoundTripByte (b : Nat) : Nat :=
  linearToMuLawByte (muLawToLinear b)

/-- Sum of squared samples — the accumulation loop of `calculateRMS`
(src/server.js:54–65, variant 1 only). -/
def sumSquares (pcm : List Int) : Int :=
  pcm.foldl (fun acc sample => acc + sample * sample) 0

/-- The squared value of `calculateRMS` (src/server.js:54–65):
`calculateRMS` returns `Math.sqrt(sumSquares / len)` (and `0` for an empty
frame).  `Math.sqrt` is strictly monotone, so every comparison of the RMS
against a nonnegative constant is embedded as the exact rational
comparison of this squared value against the squared constant. -/
def calculateRMSsq (pcm : List Int) : ℚ :=
  if pcm.length = 0 then 0 else (sumSquares pcm : ℚ) / (pcm.length : ℚ)

/-- `NOISE_THRESHOLD` (src/server.js:30, variant 1 only). -/
def NOISE_THRESHOLD : ℚ := 800

/-- The gate condition `rms > NOISE_THRESHOLD` of the variant-1 media
handler (src/server.js:272), compared at squared values: `800` squared is
`640000`, exactly representable, and `Math.sqrt` is monotone. -/
def noiseGatePasses (pcm : List Int) : Bool :=
  decide (NOISE_THRESHOLD ^ 2 < calculateRMSsq pcm)

/-- `upsampleTo16k` (src/server.js:112–122, identical in both variants).
The source loop writes, for each input index `i`, the pair
`output[2i] = input[i]` and `output[2i+1] = i < n-1 ?
(input[i]+input[i+1])/2 : input[i]`; the recursion below emits exactly
those pairs in order (the `[a]` case is the final `i = n-1` pair). -/
def upsampleTo16k : List Int → List Int
  | [] => []
  | [a] => [toInt16 a, toInt16 a]
  | a :: b :: rest => toInt16 a :: toInt16 (Int.tdiv (a + b) 2) :: upsampleTo16k (b :: rest)

/-- `downsampleTo8k` (src/server.js:100–110, identical in both variants):
`output` has `⌊n/3⌋` entries; entry `i` is the truncated mean of the
window `input[3i..3i+2]` when the window is complete, else `input[3i]`. -/
def downsampleTo8k (input : List Int) : List Int :=
  (List.range (input.length / 3)).map fun i =>
    if 3 * i + 2 < input.length then
      toInt16 (Int.tdiv (input.getD (3 * i) 0 + input.getD (3 * i + 1) 0
        + input.getD (3 * i + 2) 0) 3)
    else
      toInt16 (input.getD (3 * i) 0)

/-- `processTwilioAudio` (src/server.js:124–131, identical in both
variants): base64-decode (elided), μ-law-expand each byte into an
`Int16Array` (which truncates to 16 bits), then upsample. -/
def processTwilioAudio (payload : List Nat) : List Int :=
  upsampleTo16k (payload.map fun b => toInt16 (muLawToLinear b))

/-- `processGeminiAudio` (src/server.js:133–142, identical in both
variants): downsample the backend PCM, μ-law-compress each sample into a
`Uint8Array` (low byte), base64-encode (elided). -/
def processGeminiAudio (rawPcmData : List Int) : List Nat :=
  (downsampleTo8k rawPcmData).map linearToMuLawByte

/-!
## Variant 1 call-session model (src/server.js:163–304)

The per-connection state of the variant-1 WebSocket handler and the
transitions performed by its `message` handler, its `close`/`error`
handlers and the `cleanupSession` helper.  The AI-session promise is
modelled explicitly: `sessionStarted` is `sessionPromise !== null`,
`sessionResolved` marks the promise having resolved to a live session,
`pendingSends` are the `.then`-callbacks registered while unresolved
(the JS promise runs reactions in registration order on resolution), and
`sentToAI`/`aiCloseCount` record `session.sendRealtimeInput` and
`session.close()` executions.  A second `start` event replaces the
promise, so its pending reactions list starts empty again.
-/

structure V1State where
  sessionStarted : Bool
  streamSid : Option String
  callSid : Option String
  isCleanedUp : Bool
  sessionResolved : Bool
  pendingSends : List (List Int)
  sentToAI : List (List Int)
  aiCloseCount : Nat
deriving Repr, DecidableEq

/-- The events that drive one variant-1 connection: the three parsed
provider events, a frame on which `JSON.parse` throws, the socket
`close`/`error` events, the `.catch` of a failed forward to the AI
session (src/server.js:278–281), and the AI-session promise resolving. -/
inductive V1Event where
  | msgStart (sid cid : String)
  | msgMedia (payload : List Nat)
  | msgStop
  | msgMalformed
  | sockClose
  | sockError
  | sendFailure
  | promiseResolve
deriving Repr, DecidableEq

/-- `cleanupSession` (src/server.js:175–190): guarded by `isCleanedUp`,
which is set synchronously before the `await`, so the body runs at most
once; when a session promise exists the awaited session is closed (a
rejected promise is caught and closes nothing — the ghost counter counts
the successful close). -/
def cleanupSessionV1 (s : V1State) : V1State :=
  if s.isCleanedUp then s
  else
    { s with
      isCleanedUp := true
      aiCloseCount := s.aiCloseCount + (if s.sessionStarted then 1 else 0) }

/-- One step of the variant-1 handler (src/server.js:192–303). -/
def stepV1 (s : V1State) : V1Event → V1State
  | .msgStart sid cid =>
      { s with
        streamSid := some sid
        callSid := some cid
        sessionStarted := true
        sessionResolved := false
        pendingSends := [] }
  | .msgMedia payload =>
      if s.sessionStarted then
        let pcm16k := processTwilioAudio payload
        if noiseGatePasses pcm16k then
          if s.sessionResolved then { s with sentToAI := s.sentToAI ++ [pcm16k] }
          else { s with pendingSends := s.pendingSends ++ [pcm16k] }
        else s
      else s
  | .msgStop => cleanupSessionV1 s
  | .msgMalformed => cleanupSessionV1 s
  | .sockClose => cleanupSessionV1 s
  | .sockError => cleanupSessionV1 s
  | .sendFailure => cleanupSessionV1 s
  | .promiseResolve =>
      if s.sessionStarted && !s.sessionResolved then
        { s with
          sessionResolved := true
          sentToAI := s.sentToAI ++ s.pendingSends
          pendingSends := [] }
      else s

/-- The fresh per-connection state (src/server.js:166–169). -/
def initV1 : V1State :=
  { sessionStarted := false
    streamSid := none
    callSid := none
    isCleanedUp := false
    sessionResolved := false
    pendingSends := []
    sentToAI := []
    aiCloseCount := 0 }

/-- A whole variant-1 connection run. -/
def runV1 (events : List V1Event) : V1State :=
  events.foldl stepV1 initV1

/-!
## Variant 2 call-session model (src/server.js:513–655)

Variant 2 has no noise gate and no `isCleanedUp` flag: `stop` and the
socket `close` handler each close the awaited session directly, and the
message-handler `catch` only logs (src/server.js:637–639).  A
`session.close()` requested while the promise is unresolved is a promise
reaction queued behind the earlier `.then` sends, so the pending list
holds both kinds of reaction in registration order.
-/

/-- A promise reaction registered on the unresolved variant-2 session
promise: a queued `sendRealtimeInput` or a queued `session.close()`. -/
inductive V2Pending where
  | sendFrame (frame : List Int)
  | closeSession
deriving Repr, DecidableEq

/-- The frames among queued reactions, in order. -/
def v2PendingFrames (p : List V2Pending) : List (List Int) :=
  p.filterMap fun r =>
    match r with
    | .sendFrame f => some f
    | .closeSession => none

/-- The number of queued `close()` reactions. -/
def v2PendingCloses (p : List V2Pending) : Nat :=
  (p.filter fun r => r == V2Pending.closeSession).length

structure V2State where
  sessionStarted : Bool
  streamSid : Option String
  callSid : Option String
  sessionResolved : Bool
  pending : List V2Pending
  sentToAI : List (List Int)
  aiCloseCount : Nat
deriving Repr, DecidableEq

/-- Events driving one variant-2 connection (no socket `error` handler is
installed in variant 2, and a failed forward only suppresses the
rejection, src/server.js:626–628). -/
inductive V2Event where
  | msgStart (sid cid : String)
  | msgMedia (payload : List Nat)
  | msgStop
  | msgMalformed
  | sockClose
  | promiseResolve
deriving Repr, DecidableEq

/-- One step of the variant-2 handler (src/server.js:520–653). -/
def stepV2 (s : V2State) : V2Event → V2State
  | .msgStart sid cid =>
      { s with
        streamSid := some sid
        callSid := some cid
        sessionStarted := true
        sessionResolved := false
        pending := [] }
  | .msgMedia payload =>
      if s.sessionStarted then
        let pcm16k := processTwilioAudio payload
        if s.sessionResolved then { s with sentToAI := s.sentToAI ++ [pcm16k] }
        else { s with pending := s.pending ++ [.sendFrame pcm16k] }
      else s
  | .msgStop =>
      if s.sessionStarted then
        if s.sessionResolved then { s with aiCloseCount := s.aiCloseCount + 1 }
        else { s with pending := s.pending ++ [.closeSession] }
      else s
  | .msgMalformed => s
  | .sockClose =>
      if s.sessionStarted then
        if s.sessionResolved then { s with aiCloseCount := s.aiCloseCount + 1 }
        else { s with pending := s.pending ++ [.closeSession] }
      else s
  | .promiseResolve =>
      if s.sessionStarted && !s.sessionResolved then
        { s with
          sessionResolved := true
          sentToAI := s.sentToAI ++ v2PendingFrames s.pending
          aiCloseCount := s.aiCloseCount + v2PendingCloses s.pending
          pending := [] }
      else s

/-- The fresh variant-2 per-connection state (src/server.js:516–518). -/
def initV2 : V2State :=
  { sessionStarted := false
    streamSid := none
    callSid := none
    sessionResolved := false
    pending := []
    sentToAI := []
    aiCloseCount := 0 }

/-!
## The backend `onmessage` callbacks

Both variants install an `onmessage` callback on the AI session; its
externally visible effect is a sequence of provider-connection actions.
-/

/-- An action the `onmessage` callback performs on the provider side. -/
inductive ProviderAction where
  | mediaOut (sid : Option String) (payload : List Nat)
  | clearOut (sid : Option String)
  | transferOut (target : String)
  | closeSocket
deriving Repr, DecidableEq

/-- One entry of `msg.toolCall.functionCalls`; `args.destination` is read
by neither variant, `args.extension` may be absent (`none`). -/
structure ToolFunctionCall where
  name : String
  extension : Option String
deriving Repr, DecidableEq

/-- The shape of a backend message as the handlers test it:
`serverContent.interrupted`, the optional
`serverContent.modelTurn.parts[0].inlineData.data` audio (a base64 PCM
buffer, modelled as its samples), and the `toolCall.functionCalls` list
(empty when `msg.toolCall` is absent — `find?` of an empty list matches
the absent branch). -/
structure GeminiMsg where
  interrupted : Bool
  audioData : Option (List Int)
  toolCalls : List ToolFunctionCall
deriving Repr, DecidableEq

/-- Target resolution of the variant-2 transfer handler
(src/server.js:588–591): `HUMAN_OPERATOR_NUMBER` unless the `extension`
argument is truthy with length `> 6` (an absent or empty extension fails
the truthiness test; an empty string also fails the length test). -/
def resolveTransferTarget (extension : Option String) (fallback : String) : String :=
  match extension with
  | some e => if e.length > 6 then e else fallback
  | none => fallback

/-- Variant 1 `onmessage` (src/server.js:224–258): bail out when the
socket is not open; on `interrupted` send one `clear` and return; else
forward audio (the failed-send `catch` is the `sendFailure` event of the
session model) — the variant-1 tool branch only logs, performing no
provider action. -/
def onMessageV1 (socketOpen : Bool) (sid : Option String) (msg : GeminiMsg) :
    List ProviderAction :=
  if !socketOpen then []
  else if msg.interrupted then [.clearOut sid]
  else
    match msg.audioData with
    | some raw => [.mediaOut sid (processGeminiAudio raw)]
    | none => []

/-- Variant 2 `onmessage` (src/server.js:561–606): as variant 1, but the
first `functionCalls` entry named `transferCall` triggers the Twilio
call update to `<Dial>` the resolved target, then closes the socket. -/
def onMessageV2 (socketOpen : Bool) (sid : Option String) (fallback : String)
    (msg : GeminiMsg) : List ProviderAction :=
  if !socketOpen then []
  else if msg.interrupted then [.clearOut sid]
  else
    (match msg.audioData with
     | some raw => [.mediaOut sid (processGeminiAudio raw)]
     | none => []) ++
    (match msg.toolCalls.find? (fun fc => fc.name == "transferCall") with
     | some call => [.transferOut (resolveTransferTarget call.extension fallback),
                     .closeSocket]
     | none => [])

/-- The frames the variant-1 media handler forwards for a list of media
payloads: each is decoded and upsampled, then filtered by the gate. -/
def gatedFrames (payloads : List (List Nat)) : List (List Int) :=
  (payloads.map processTwilioAudio).filter noiseGatePasses

/-- The frames the variant-2 media handler forwards: every payload,
decoded and upsampled, with no gate. -/
def processedFrames (payloads : List (List Nat)) : List (List Int) :=
  payloads.map processTwilioAudio

/-!
## Theorems
-/

set_option maxRecDepth 40000 in
/-- **C1.** The μ-law round trip `linearToMuLaw ∘ muLawToLinear` never
reproduces the input byte: the decoder shifts by `12 - exponent` instead
of scaling up with the exponent and never subtracts the bias, so loud
codes decode quiet and vice versa, and the encoder's sign convention is
the bitwise complement of the decoder's.  At the four segment-boundary
bytes the recoded bytes are `0xF2`, `0xFF`, `0x72`, `0x7F` — none within
any quantization tolerance of the original, and the sign bit of the
result is always the complement of the input's. -/
theorem muLaw_roundtrip_never_reproduces :
    muLawRoundTripByte 0x00 = 0xF2 ∧
    muLawRoundTripByte 0x7F = 0xFF ∧
    muLawRoundTripByte 0x80 = 0x72 ∧
    muLawRoundTripByte 0xFF = 0x7F ∧
    (∀ b : Fin 256, muLawRoundTripByte b.val ≠ b.val) ∧
    (∀ b : Fin 256, muLawRoundTripByte b.val &&& 0x80 = (b.val ^^^ 0xFF) &&& 0x80) := by
  refine ⟨rfl, rfl, rfl, rfl, by decide, by decide⟩

set_option maxRecDepth 40000 in
/-- **C2.** `muLawToLinear` is total on the byte domain, but its output is
not a 16-bit signed sample: at `b = 0xFF` it returns `135168 > 32767`.
Its actual tight range over the byte domain is `[-258048, 258048]`. -/
theorem muLawToLinear_exceeds_int16 :
    muLawToLinear 0xFF = 135168 ∧
    ¬(muLawToLinear 0xFF ≤ 32767) ∧
    muLawToLinear 0x70 = -258048 ∧
    (∀ b : Fin 256, -258048 ≤ muLawToLinear b.val ∧ muLawToLinear b.val ≤ 258048) := by
  refine ⟨rfl, by decide, rfl, by decide⟩

/-- **C6.** When the backend message carries `serverContent.interrupted`
and the provider socket is open, both variants' `onmessage` callbacks
emit exactly one `clear` control event carrying the stream id and nothing
else — even when the same message also carries an audio chunk or tool
calls, none of them is processed. -/
theorem interrupted_sends_single_clear (sid : Option String) (fallback : String)
    (audio : Option (List Int)) (tools : List ToolFunctionCall) :
    onMessageV1 true sid ⟨true, audio, tools⟩ = [ProviderAction.clearOut sid] ∧
    onMessageV2 true sid fallback ⟨true, audio, tools⟩ = [ProviderAction.clearOut sid] := by
  exact ⟨rfl, rfl⟩

/-- **C10.** A provider `media` event arriving before any `start` event
(so `sessionPromise` is still `null`) is silently discarded by both
variants: the handler state is returned unchanged — nothing is queued,
nothing is sent to the AI backend, and no error is raised. -/
theorem media_before_start_is_noop (sid cid : Option String)
    (clean resolved : Bool) (pend sent : List (List Int))
    (vpend : List V2Pending) (cnt vcnt : Nat) (payload : List Nat) :
    stepV1 ⟨false, sid, cid, clean, resolved, pend, sent, cnt⟩
        (V1Event.msgMedia payload) =
      ⟨false, sid, cid, clean, resolved, pend, sent, cnt⟩ ∧
    stepV2 ⟨false, sid, cid, resolved, vpend, sent, vcnt⟩
        (V2Event.msgMedia payload) =
      ⟨false, sid, cid, resolved, vpend, sent, vcnt⟩ := by
  exact ⟨rfl, rfl⟩

/-- The upsampler exactly doubles the sample count (the source allocates
`Int16Array(input.length * 2)` and fills every slot). -/
theorem upsampleTo16k_length (input : List Int) :
    (upsampleTo16k input).length = 2 * input.length := by
  induction input with
  | nil => rfl
  | cons a t ih =>
    cases t with
    | nil => rfl
    | cons b r =>
      simp only [upsampleTo16k, List.length_cons] at ih ⊢
      omega

/-- The downsampler emits `⌊n/3⌋` samples. -/
theorem downsampleTo8k_length (input : List Int) :
    (downsampleTo8k input).length = input.length / 3 := by
  simp [downsampleTo8k]

/-- **C9 (counterexample).** Upsampling then downsampling a 3-sample
buffer yields 2 samples, not 3: the repository's only resampler pair has
mismatched ratios (×2 up, ÷3 down), so the composition does not preserve
the sample count. -/
theorem updown_drops_samples :
    ¬((downsampleTo8k (upsampleTo16k [1, 2, 3])).length = 3) := by
  decide

/-- **C9 (amended).** Composing the repository's upsampler (×2) with its
downsampler (÷3) maps an `n`-sample buffer to `⌊2n/3⌋` samples — the
count is preserved only for the empty buffer. -/
theorem updown_length_two_thirds (input : List Int) :
    (downsampleTo8k (upsampleTo16k input)).length = 2 * input.length / 3 := by
  rw [downsampleTo8k_length, upsampleTo16k_length]

/-- The gate comparison, freed of the rational division: a frame passes
exactly when its sum of squared samples exceeds `640000` times its length
(so an empty frame never passes — its RMS is defined as `0`). -/
theorem noiseGatePasses_iff (pcm : List Int) :
    noiseGatePasses pcm = true ↔
      (640000 : Int) * pcm.length < sumSquares pcm := by
  unfold noiseGatePasses calculateRMSsq NOISE_THRESHOLD
  rw [decide_eq_true_eq]
  by_cases h : pcm.length = 0
  · have hnil : pcm = [] := List.length_eq_zero.mp h
    subst hnil
    simp [sumSquares]
  · have hpos : (0 : ℚ) < (pcm.length : ℚ) := by
      exact_mod_cast Nat.pos_of_ne_zero h
    rw [if_neg h, lt_div_iff₀ hpos,
      show ((800 : ℚ) ^ 2) = 640000 by norm_num]
    constructor
    · intro hq
      exact_mod_cast hq
    · intro hz
      exact_mod_cast hz

/-- **C3.** On a `media` event of an established, resolved session the
variant-1 handler forwards the decoded and upsampled frame to the AI
session exactly when the gate condition `rms > 800` holds, and otherwise
returns the state unchanged — the frame is dropped with no error, no
retry, and no buffering; the gate condition is equivalent to the frame's
squared-sample sum exceeding `640000 · n`. -/
theorem media_forwarded_iff_above_gate (sid cid : Option String) (clean : Bool)
    (pend sent : List (List Int)) (cnt : Nat) (payload : List Nat) :
    (stepV1 ⟨true, sid, cid, clean, true, pend, sent, cnt⟩
        (V1Event.msgMedia payload) =
      if noiseGatePasses (processTwilioAudio payload) then
        ⟨true, sid, cid, clean, true, pend,
          sent ++ [processTwilioAudio payload], cnt⟩
      else ⟨true, sid, cid, clean, true, pend, sent, cnt⟩) ∧
    (noiseGatePasses (processTwilioAudio payload) = true ↔
      (640000 : Int) * (processTwilioAudio payload).length <
        sumSquares (processTwilioAudio payload)) := by
  constructor
  · by_cases h : noiseGatePasses (processTwilioAudio payload) <;>
      simp [stepV1, h]
  · exact noiseGatePasses_iff _

/-- Every variant-1 step preserves the close-counter invariant: a state
not yet cleaned up has executed no close, and never more than one close
is executed. -/
theorem stepV1_close_invariant (s : V1State) (e : V1Event)
    (h0 : s.isCleanedUp = false → s.aiCloseCount = 0)
    (h1 : s.aiCloseCount ≤ 1) :
    ((stepV1 s e).isCleanedUp = false → (stepV1 s e).aiCloseCount = 0) ∧
      (stepV1 s e).aiCloseCount ≤ 1 := by
  cases e <;>
    simp only [stepV1, cleanupSessionV1] <;>
    (try split_ifs) <;> simp_all

/-- The step invariant, folded over any event trace. -/
theorem foldlV1_close_invariant (events : List V1Event) (s : V1State)
    (h0 : s.isCleanedUp = false → s.aiCloseCount = 0)
    (h1 : s.aiCloseCount ≤ 1) :
    (events.foldl stepV1 s).aiCloseCount ≤ 1 := by
  induction events generalizing s with
  | nil => exact h1
  | cons e rest ih =>
    have h := stepV1_close_invariant s e h0 h1
    exact ih (stepV1 s e) h.1 h.2

/-- **C4.** Over any trace of events driving a variant-1 connection —
`stop`, socket `close`, socket `error`, a failed forward, malformed
frames, in any number and order — the AI session's `close()` is executed
at most once, and `cleanupSession` is idempotent: a second invocation on
an already-cleaned state is a no-op. -/
theorem ai_session_closed_at_most_once (events : List V1Event) (s : V1State) :
    (runV1 events).aiCloseCount ≤ 1 ∧
    cleanupSessionV1 (cleanupSessionV1 s) = cleanupSessionV1 s := by
  constructor
  · exact foldlV1_close_invariant events initV1 (fun _ => rfl) (by simp [initV1])
  · by_cases h : s.isCleanedUp <;> simp [cleanupSessionV1, h]

/-- Variant 1: media frames arriving while the session promise is still
unresolved are appended to its reaction queue, and the resolution step
replays the whole queue, in registration order, into
`sendRealtimeInput`. -/
theorem stepV1_queue_drain (payloads : List (List Nat)) (sid cid : Option String)
    (clean : Bool) (pend sent : List (List Int)) (cnt : Nat) :
    List.foldl stepV1 ⟨true, sid, cid, clean, false, pend, sent, cnt⟩
        (payloads.map V1Event.msgMedia ++ [V1Event.promiseResolve]) =
      ⟨true, sid, cid, clean, true, [], sent ++ pend ++ gatedFrames payloads, cnt⟩ := by
  induction payloads generalizing pend with
  | nil => simp [stepV1, gatedFrames]
  | cons p rest ih =>
    simp only [List.map_cons, List.cons_append, List.foldl_cons]
    by_cases h : noiseGatePasses (processTwilioAudio p)
    · rw [show stepV1 ⟨true, sid, cid, clean, false, pend, sent, cnt⟩
            (V1Event.msgMedia p) =
          ⟨true, sid, cid, clean, false, pend ++ [processTwilioAudio p], sent, cnt⟩ by
        simp [stepV1, h]]
      rw [ih]
      simp [gatedFrames, List.filter_cons, h, List.append_assoc]
    · rw [show stepV1 ⟨true, sid, cid, clean, false, pend, sent, cnt⟩
            (V1Event.msgMedia p) =
          ⟨true, sid, cid, clean, false, pend, sent, cnt⟩ by
        simp [stepV1, h]]
      rw [ih]
      simp [gatedFrames, List.filter_cons, h]

/-- Variant 2: the same replay property, where a queued `close()` is also
a promise reaction; all queued frames are still delivered in order on
resolution. -/
theorem stepV2_queue_drain (payloads : List (List Nat)) (sid cid : Option String)
    (pend : List V2Pending) (sent : List (List Int)) (cnt : Nat) :
    List.foldl stepV2 ⟨true, sid, cid, false, pend, sent, cnt⟩
        (payloads.map V2Event.msgMedia ++ [V2Event.promiseResolve]) =
      ⟨true, sid, cid, true, [],
        sent ++ v2PendingFrames pend ++ processedFrames payloads,
        cnt + v2PendingCloses pend⟩ := by
  induction payloads generalizing pend with
  | nil => simp [stepV2, processedFrames]
  | cons p rest ih =>
    simp only [List.map_cons, List.cons_append, List.foldl_cons]
    rw [show stepV2 ⟨true, sid, cid, false, pend, sent, cnt⟩
          (V2Event.msgMedia p) =
        ⟨true, sid, cid, false,
          pend ++ [V2Pending.sendFrame (processTwilioAudio p)], sent, cnt⟩ by
      simp [stepV2]]
    rw [ih]
    simp [v2PendingFrames, v2PendingCloses, List.filterMap_append,
      List.filter_append, processedFrames, List.append_assoc]

/-- **C5.** In both variants, every audio frame handed to the AI session
while its handle is still resolving is delivered once the handle
resolves, in original arrival order, after the frames already queued —
none is dropped: processing the media events and then the resolution
yields exactly the queued frames followed by the new frames (gated in
variant 1, all of them in variant 2). -/
theorem queued_audio_replayed_in_order (payloads : List (List Nat))
    (sid cid : Option String) (clean : Bool) (pend sent : List (List Int))
    (vpend : List V2Pending) (cnt vcnt : Nat) :
    List.foldl stepV1 ⟨true, sid, cid, clean, false, pend, sent, cnt⟩
        (payloads.map V1Event.msgMedia ++ [V1Event.promiseResolve]) =
      ⟨true, sid, cid, clean, true, [], sent ++ pend ++ gatedFrames payloads, cnt⟩ ∧
    List.foldl stepV2 ⟨true, sid, cid, false, vpend, sent, vcnt⟩
        (payloads.map V2Event.msgMedia ++ [V2Event.promiseResolve]) =
      ⟨true, sid, cid, true, [],
        sent ++ v2PendingFrames vpend ++ processedFrames payloads,
        vcnt + v2PendingCloses vpend⟩ :=
  ⟨stepV1_queue_drain payloads sid cid clean pend sent cnt,
   stepV2_queue_drain payloads sid cid vpend sent vcnt⟩

/-- **C7 (counterexample).** The variant-1 `toolCall` handler
(src/server.js:252–257) only logs the requested extension: for a
`transferCall` tool call it resolves no target and performs **no**
provider call-control action at all — refuting the claim that every
`transferCall` leads to the transfer action being invoked. -/
theorem v1_toolcall_invokes_no_transfer :
    onMessageV1 true (some "S1")
        ⟨false, none, [⟨"transferCall", some "1234567890"⟩]⟩ = [] := by
  rfl

/-- **C7 (amended).** In variant 2, a `toolCall` naming `transferCall`
always resolves a transfer target and invokes the provider call update
with it, then closes the socket — never an error for a missing or
ill-formed extension: the explicit `extension` argument is used when
present and longer than 6 characters, otherwise the configured
human-operator fallback; other tool names in the list are skipped.
(Variant 1's tool branch only logs and performs no call-control action.) -/
theorem transfer_always_resolves_target (sid : Option String)
    (fallback : String) (eOther ext : Option String) :
    (onMessageV2 true sid fallback
        ⟨false, none, [⟨"lookupOrder", eOther⟩, ⟨"transferCall", ext⟩]⟩ =
      [ProviderAction.transferOut (resolveTransferTarget ext fallback),
       ProviderAction.closeSocket]) ∧
    resolveTransferTarget none fallback = fallback ∧
    (∀ e : String, resolveTransferTarget (some e) fallback =
      if 6 < e.length then e else fallback) := by
  refine ⟨?_, rfl, fun e => rfl⟩
  simp [onMessageV2, List.find?]

/-- **C8 (counterexample).** In variant 1 a single malformed inbound
frame is **not** inert: the `catch` of the message handler invokes
`cleanupSession`, so after `start` followed by one undecodable frame the
session is marked cleaned up and the AI session's `close()` has run —
contradicting the claim that a malformed frame never closes the
CallSession's AI session. -/
theorem malformed_frame_cleans_up_in_v1 :
    (runV1 [V1Event.msgStart "S1" "C1", V1Event.msgMalformed]).isCleanedUp = true ∧
    (runV1 [V1Event.msgStart "S1" "C1", V1Event.msgMalformed]).aiCloseCount = 1 := by
  constructor <;> rfl

/-- **C8 (amended).** A single malformed inbound JSON frame is logged and
skipped without tearing down the provider connection, and subsequent
well-formed frames are still processed; in variant 2 the handler state is
completely untouched (the AI session stays open), while variant 1's
`catch` additionally invokes the idempotent cleanup, closing the AI
session.  Formally, for variant 2 a malformed frame is the identity step
and erasing it from the front of any trace changes nothing. -/
theorem malformed_frame_skipped_v2 (s : V2State) (rest : List V2Event) :
    stepV2 s V2Event.msgMalformed = s ∧
    List.foldl stepV2 s (V2Event.msgMalformed :: rest) =
      List.foldl stepV2 s rest := by
  exact ⟨rfl, rfl⟩
